import Mathlib

/-!
Verification of `modules/planning/common/change_lane_decider.cc` (Apollo
planning module): the lane-change state machine (`Apply` with its helpers
`UpdateStatus`, `PrioritizeChangeLane`, `RemoveChangeLane`, `GetCurrentPathId`),
the safety clearance evaluator (`IsClearToChangeLane`) and the hysteresis
filter (`HysteresisFilter`).

Embedding conventions:
* C++ `double` values (times, distances, speeds) are embedded as `ℚ`.
* Angles (vehicle heading, obstacle trajectory heading) are stored in units of
  π radians, so the literal `M_PI` becomes `1`, `M_PI / 2` becomes `1/2`, and
  `common::math::NormalizeAngle` normalizes into `[-1, 1)`.
* `std::numeric_limits<double>::max()` is embedded as the constant `dblMax`.
* The persisted protobuf `ChangeLaneStatus` is a record whose `status` field is
  an `Option` (`none` models `has_status() == false`).
* `Apply` mutates the candidate list and the persisted status through pointers
  and returns `bool`; the embedding returns a record holding the returned
  result together with the final list and status.  The three `return false`
  sites are distinguished (as they are in the source by their `AERROR`
  messages) by an error code: empty input, unknown state, no active lane.
* Gflags (`FLAGS_reckless_change_lane`, `FLAGS_change_lane_fail_freeze_time`,
  `FLAGS_change_lane_success_freeze_time`) and the clock reading
  (`Clock::NowInSeconds()`) are passed as explicit parameters.
-/

namespace Apollo

/-- The values of the protobuf enum `ChangeLaneStatus::Status`, plus a
`UNKNOWN` value standing for any unrecognized wire value, which the source
handles in its defensive `else` branches. -/
inductive StatusCode where
  | IN_CHANGE_LANE
  | CHANGE_LANE_SUCCESS
  | CHANGE_LANE_FAILED
  | UNKNOWN
deriving DecidableEq, Repr

/-- The persisted `ChangeLaneStatus` message: `status = none` models
`has_status() == false` (the UNSET bootstrap state). -/
structure ChangeLaneStatus where
  status : Option StatusCode
  path_id : String
  timestamp : ℚ
deriving DecidableEq, Repr

/-- Vehicle state fields consumed by `IsClearToChangeLane`; `heading` is in
units of π radians and `gearReverse` models `gear() == GEAR_REVERSE`. -/
structure VehicleState where
  heading : ℚ
  gearReverse : Bool
  linear_velocity : ℚ
deriving DecidableEq, Repr

/-- Obstacle fields consumed by `IsClearToChangeLane`.  `polygonSL` is the
perception polygon with each vertex already projected by
`reference_line().XYToSL` to its `(s, l)` coordinates (the projection itself
is external geometry).  `trajectoryTheta` is
`Trajectory().trajectory_point(0).path_point().theta()` in units of π radians,
read only when `hasTrajectory`.  `lane_change_blocking` is the persisted
per-obstacle hysteresis flag. -/
structure Obstacle where
  obstId : String
  isVirtual : Bool
  isStatic : Bool
  speed : ℚ
  hasTrajectory : Bool
  trajectoryTheta : ℚ
  polygonSL : List (ℚ × ℚ)
  lane_change_blocking : Bool
deriving DecidableEq, Repr

/-- One `ReferenceLineInfo` candidate: the fields the decider consumes.
`laneId` is `Lanes().Id()`; `adcStartS`/`adcEndS` are
`AdcSlBoundary().start_s()/end_s()`; `obstacles` is
`path_decision()->obstacles().Items()` in iteration order. -/
structure ReferenceLineInfo where
  is_lane_change_path : Bool
  laneId : String
  adcStartS : ℚ
  adcEndS : ℚ
  vehicle : VehicleState
  obstacles : List Obstacle
deriving DecidableEq, Repr

/-- `IsChangeLanePath()` accessor. -/
def ReferenceLineInfo.IsChangeLanePath (r : ReferenceLineInfo) : Bool :=
  r.is_lane_change_path

/-- The three distinct `return false` sites of `Apply`, distinguished in the
source by their `AERROR` messages ("Reference lines empty",
"Unknown state: ...", "The vehicle is not on any reference line"). -/
inductive ApplyError where
  | EmptyInput
  | UnknownState
  | NoActiveLane
deriving DecidableEq, Repr

/-- Result of `Apply`: the returned `bool` (as `Except`) together with the
final contents of the two mutable locations, the candidate list and the
persisted status. -/
structure ApplyResult where
  result : Except ApplyError Unit
  lines : List ReferenceLineInfo
  status : ChangeLaneStatus
deriving Repr

namespace ChangeLaneDecider

/-- `ChangeLaneDecider::UpdateStatus(timestamp, status_code, path_id)`:
writes all three fields of the persisted status. -/
def UpdateStatus (timestamp : ℚ) (status_code : StatusCode) (path_id : String) :
    ChangeLaneStatus :=
  { status := some status_code, path_id := path_id, timestamp := timestamp }

/-- The loop body of `ChangeLaneDecider::PrioritizeChangeLane`: find the first
element with `IsChangeLanePath()`, returning it and the list with it removed;
`none` when no element qualifies. -/
def extractFirstChangeLane :
    List ReferenceLineInfo → Option (ReferenceLineInfo × List ReferenceLineInfo)
  | [] => none
  | x :: xs =>
    if x.IsChangeLanePath then some (x, xs)
    else
      match extractFirstChangeLane xs with
      | none => none
      | some (c, rest) => some (c, x :: rest)

/-- `ChangeLaneDecider::PrioritizeChangeLane`: splice the first change-lane
candidate to the front of the list; a no-op when the list is empty or has no
change-lane candidate. -/
def PrioritizeChangeLane (l : List ReferenceLineInfo) : List ReferenceLineInfo :=
  match extractFirstChangeLane l with
  | none => l
  | some (c, rest) => c :: rest

/-- `ChangeLaneDecider::RemoveChangeLane`: erase every change-lane candidate. -/
def RemoveChangeLane (l : List ReferenceLineInfo) : List ReferenceLineInfo :=
  l.filter (fun r => !r.IsChangeLanePath)

end ChangeLaneDecider

/-- `GetCurrentPathId` (file-local helper): the lane id of the first
non-change-lane candidate, or `""` when every candidate is a change-lane
path. -/
def GetCurrentPathId : List ReferenceLineInfo → String
  | [] => ""
  | info :: rest =>
    if !info.IsChangeLanePath then info.laneId else GetCurrentPathId rest

namespace ChangeLaneDecider

/-- `ChangeLaneDecider::Apply`.  Parameters: `reckless` is
`FLAGS_reckless_change_lane`, `failFreeze` is
`FLAGS_change_lane_fail_freeze_time`, `successFreeze` is
`FLAGS_change_lane_success_freeze_time`, `now` is `Clock::NowInSeconds()`,
`prev` is the persisted status read through `PlanningContext`, `lines` is the
in/out candidate list. -/
def Apply (reckless : Bool) (failFreeze successFreeze now : ℚ)
    (prev : ChangeLaneStatus) (lines : List ReferenceLineInfo) : ApplyResult :=
  match lines with
  | [] => ⟨.error .EmptyInput, lines, prev⟩
  | front :: restLines =>
    if reckless then
      ⟨.ok (), PrioritizeChangeLane lines, prev⟩
    else
      match prev.status with
      | none =>
        ⟨.ok (), lines,
          UpdateStatus now .CHANGE_LANE_SUCCESS (GetCurrentPathId lines)⟩
      | some st =>
        -- has_change_lane = reference_line_info->size() > 1
        if restLines.isEmpty then
          -- single candidate: path_id = front.Lanes().Id()
          match st with
          | .CHANGE_LANE_SUCCESS => ⟨.ok (), lines, prev⟩
          | .IN_CHANGE_LANE =>
            ⟨.ok (), lines, UpdateStatus now .CHANGE_LANE_SUCCESS front.laneId⟩
          | .CHANGE_LANE_FAILED => ⟨.ok (), lines, prev⟩
          | .UNKNOWN => ⟨.error .UnknownState, lines, prev⟩
        else
          let current_path_id := GetCurrentPathId lines
          if current_path_id = "" then
            ⟨.error .NoActiveLane, lines, prev⟩
          else
            match st with
            | .IN_CHANGE_LANE =>
              if prev.path_id = current_path_id then
                ⟨.ok (), PrioritizeChangeLane lines, prev⟩
              else
                ⟨.ok (), RemoveChangeLane lines,
                  UpdateStatus now .CHANGE_LANE_SUCCESS current_path_id⟩
            | .CHANGE_LANE_FAILED =>
              if now - prev.timestamp < failFreeze then
                ⟨.ok (), RemoveChangeLane lines, prev⟩
              else
                ⟨.ok (), lines, UpdateStatus now .IN_CHANGE_LANE current_path_id⟩
            | .CHANGE_LANE_SUCCESS =>
              if now - prev.timestamp < successFreeze then
                ⟨.ok (), RemoveChangeLane lines, prev⟩
              else
                ⟨.ok (), PrioritizeChangeLane lines,
                  UpdateStatus now .IN_CHANGE_LANE current_path_id⟩
            | .UNKNOWN => ⟨.error .UnknownState, lines, prev⟩

/-- `ChangeLaneDecider::HysteresisFilter`. -/
def HysteresisFilter (obstacle_distance safe_distance distance_buffer : ℚ)
    (is_obstacle_blocking : Bool) : Bool :=
  if is_obstacle_blocking then
    decide (obstacle_distance < safe_distance + distance_buffer)
  else
    decide (obstacle_distance < safe_distance - distance_buffer)

end ChangeLaneDecider

/-- Stand-in for `std::numeric_limits<double>::max()`. -/
def dblMax : ℚ := 2 ^ 1023

/-- `common::math::NormalizeAngle` in units of π radians: reduce modulo 2
into `[-1, 1)`.  The source computes `fmod(angle + π, 2π)`, adds `2π` when
negative, and subtracts `π`, which is exactly floor-mod. -/
def normalizeAngle (a : ℚ) : ℚ :=
  (a + 1) - 2 * ((Rat.floor ((a + 1) / 2) : ℤ) : ℚ) - 1

/-- The bounding-interval loop over the projected perception polygon:
`(start_s, end_s, start_l, end_l)` folded with `fmin`/`fmax` from
`(dblMax, -dblMax, dblMax, -dblMax)`. -/
def polyBounds (pts : List (ℚ × ℚ)) : ℚ × ℚ × ℚ × ℚ :=
  pts.foldl
    (fun b p => (min b.1 p.1, max b.2.1 p.1, min b.2.2.1 p.2, max b.2.2.2 p.2))
    (dblMax, -dblMax, dblMax, -dblMax)

namespace ChangeLaneDecider

/-- The same-direction estimate for one obstacle: compare the first obstacle
trajectory-point heading with the vehicle heading (shifted by π when in
reverse gear); same direction iff the absolute normalized difference is below
π/2.  Defaults to `true` without a predicted trajectory. -/
def sameDirection (v : VehicleState) (o : Obstacle) : Bool :=
  if o.hasTrajectory then
    let vehicle_moving_direction :=
      if v.gearReverse then normalizeAngle (v.heading + 1) else v.heading
    decide (|normalizeAngle (o.trajectoryTheta - vehicle_moving_direction)| < 1 / 2)
  else
    true

/-- The direction-dependent `(kForwardSafeDistance, kBackwardSafeDistance)`
pair, from the fixed constants of the source: same direction uses
`max(6, (ego_v − obst_v)·3)` forward and `max(8, (obst_v − ego_v)·3)`
backward; opposite direction uses `max(50, (ego_v + obst_v)·5)` forward and
the fixed `1` backward. -/
def safeDistances (ego_v : ℚ) (o : Obstacle) (same : Bool) : ℚ × ℚ :=
  if same then
    (max 6 ((ego_v - o.speed) * 3), max 8 ((o.speed - ego_v) * 3))
  else
    (max 50 ((ego_v + o.speed) * 5), 1)

/-- Whether one obstacle is judged blocking this cycle: both the backward-gap
and the forward-gap hysteresis checks (with buffer `kDistanceBuffer = 0.5`)
judge the gap unsafe, each fed the persisted blocking flag of the obstacle. -/
def obstacleBlocks (r : ReferenceLineInfo) (o : Obstacle) : Bool :=
  let ego_v := |r.vehicle.linear_velocity|
  let b := polyBounds o.polygonSL
  let sd := safeDistances ego_v o (sameDirection r.vehicle o)
  HysteresisFilter (r.adcStartS - b.2.1) sd.2 (1 / 2) o.lane_change_blocking &&
    HysteresisFilter (b.1 - r.adcEndS) sd.1 (1 / 2) o.lane_change_blocking

/-- Whether the loop of `IsClearToChangeLane` skips this obstacle without
evaluating it: virtual or static, or — on a change-lane candidate — its
lateral interval lies entirely outside the `±2.5` corridor
(`kLateralShift`). -/
def skipsObstacle (r : ReferenceLineInfo) (o : Obstacle) : Bool :=
  o.isVirtual || o.isStatic ||
    (r.IsChangeLanePath &&
      (let b := polyBounds o.polygonSL
       decide (b.2.2.2 < -(5 / 2)) || decide (b.2.2.1 > 5 / 2)))

/-- `SetLaneChangeBlocking` on one obstacle record. -/
def setBlocking (o : Obstacle) (v : Bool) : Obstacle :=
  { o with lane_change_blocking := v }

/-- The obstacle loop of `ChangeLaneDecider::IsClearToChangeLane`: returns the
boolean result together with the obstacle list after the flag writes performed
through `path_decision()->Find(id)->SetLaneChangeBlocking`. -/
def isClearLoop (r : ReferenceLineInfo) : List Obstacle → Bool × List Obstacle
  | [] => (true, [])
  | o :: rest =>
    if skipsObstacle r o then
      let t := isClearLoop r rest
      (t.1, o :: t.2)
    else if obstacleBlocks r o then
      (false, setBlocking o true :: rest)
    else
      let t := isClearLoop r rest
      (t.1, setBlocking o false :: t.2)

/-- `ChangeLaneDecider::IsClearToChangeLane`: scan the obstacles of the
candidate, producing the returned boolean and the final obstacle states. -/
def IsClearToChangeLane (r : ReferenceLineInfo) : Bool × List Obstacle :=
  isClearLoop r r.obstacles

end ChangeLaneDecider

/-- Number of change-lane candidates in a candidate list. -/
def countChangeLane (l : List ReferenceLineInfo) : ℕ :=
  (l.filter (fun r => r.IsChangeLanePath)).length

/-- An obstacle both reaches the hysteresis checks (not virtual, not static,
not laterally prefiltered) and is judged blocking by them this cycle. -/
def evalBlocks (r : ReferenceLineInfo) (o : Obstacle) : Bool :=
  !ChangeLaneDecider.skipsObstacle r o && ChangeLaneDecider.obstacleBlocks r o

/-- The flag write applied by the loop to an obstacle it passes over without
returning: evaluated obstacles get their flag set `false`, skipped obstacles
are left untouched. -/
def passFlagWrite (r : ReferenceLineInfo) (o : Obstacle) : Obstacle :=
  if ChangeLaneDecider.skipsObstacle r o then o
  else ChangeLaneDecider.setBlocking o false

/-- Sample fixture: a vehicle at rest in forward gear with heading `0`. -/
def sampleVehicle : VehicleState := ⟨0, false, 0⟩

/-- Sample non-change-lane candidate with lane id `"A"`, no obstacles. -/
def laneA : ReferenceLineInfo := ⟨false, "A", 0, 5, sampleVehicle, []⟩

/-- Sample change-lane candidate with lane id `"B"`, no obstacles. -/
def laneB : ReferenceLineInfo := ⟨true, "B", 0, 5, sampleVehicle, []⟩

/-- A second sample change-lane candidate, lane id `"C"`. -/
def laneC : ReferenceLineInfo := ⟨true, "C", 0, 5, sampleVehicle, []⟩

/-- Sample dynamic obstacle: not virtual, not static, no predicted
trajectory, one polygon vertex projected to `(s, l) = (6, -3)`, persisted
flag `false`.  Against `laneChangeRef` its gaps are unsafe (backward gap
`0 - 6 = -6 < 8 - 0.5`, forward gap `6 - 5 = 1 < 6 - 0.5`) but its lateral
interval `[-3, -3]` lies entirely below `-2.5`. -/
def obstLat : Obstacle := ⟨"O1", false, false, 0, false, 0, [(6, -3)], false⟩

/-- Sample change-lane candidate whose obstacle list is `[obstLat]`; the ego
SL boundary is `[0, 5]`. -/
def laneChangeRef : ReferenceLineInfo := ⟨true, "B", 0, 5, sampleVehicle, [obstLat]⟩

/-! ## Helper lemmas -/

/-- When every candidate is a change-lane path, `GetCurrentPathId` returns
the empty string. -/
theorem getCurrentPathId_all_change (lines : List ReferenceLineInfo)
    (h : ∀ r ∈ lines, r.IsChangeLanePath = true) : GetCurrentPathId lines = "" := by
  induction lines with
  | nil => rfl
  | cons x xs ih =>
    have hx := h x (by simp)
    simp only [GetCurrentPathId, hx, Bool.not_true, Bool.false_eq_true, if_false]
    exact ih fun r hr => h r (by simp [hr])

/-- Extracting the first change-lane candidate yields a permutation: the
original list is a permutation of the extracted element consed on the rest. -/
theorem extractFirstChangeLane_perm (l : List ReferenceLineInfo) :
    ∀ c rest, ChangeLaneDecider.extractFirstChangeLane l = some (c, rest) →
      l.Perm (c :: rest) := by
  induction l with
  | nil => intro c rest h; cases h
  | cons x xs ih =>
    intro c rest h
    unfold ChangeLaneDecider.extractFirstChangeLane at h
    by_cases hx : x.IsChangeLanePath
    · rw [if_pos hx] at h
      cases h
      exact List.Perm.refl _
    · rw [if_neg hx] at h
      cases he : ChangeLaneDecider.extractFirstChangeLane xs with
      | none => rw [he] at h; cases h
      | some p =>
        obtain ⟨c2, rest2⟩ := p
        rw [he] at h
        cases h
        exact (List.Perm.cons x (ih c rest2 he)).trans (List.Perm.swap c x rest2)

/-- `PrioritizeChangeLane` permutes the list. -/
theorem prioritizeChangeLane_perm (l : List ReferenceLineInfo) :
    (ChangeLaneDecider.PrioritizeChangeLane l).Perm l := by
  unfold ChangeLaneDecider.PrioritizeChangeLane
  cases he : ChangeLaneDecider.extractFirstChangeLane l with
  | none => exact List.Perm.refl _
  | some p =>
    obtain ⟨c, rest⟩ := p
    exact (extractFirstChangeLane_perm l c rest he).symm

/-- `PrioritizeChangeLane` preserves the number of change-lane candidates. -/
theorem countChangeLane_prioritize (l : List ReferenceLineInfo) :
    countChangeLane (ChangeLaneDecider.PrioritizeChangeLane l) = countChangeLane l :=
  ((prioritizeChangeLane_perm l).filter _).length_eq

/-- `RemoveChangeLane` leaves no change-lane candidate. -/
theorem countChangeLane_remove (l : List ReferenceLineInfo) :
    countChangeLane (ChangeLaneDecider.RemoveChangeLane l) = 0 := by
  simp only [countChangeLane, ChangeLaneDecider.RemoveChangeLane, List.filter_filter]
  simp

/-- `Apply` never increases the number of change-lane candidates: the final
list is the input list, its prioritized permutation, or the input with all
change-lane candidates removed. -/
theorem countChangeLane_apply_le (reckless : Bool) (failFreeze successFreeze now : ℚ)
    (prev : ChangeLaneStatus) (lines : List ReferenceLineInfo) :
    countChangeLane
        (ChangeLaneDecider.Apply reckless failFreeze successFreeze now prev lines).lines ≤
      countChangeLane lines := by
  unfold ChangeLaneDecider.Apply
  cases lines with
  | nil => exact le_refl _
  | cons front rest =>
    dsimp only
    repeat' split
    all_goals
      simp [countChangeLane_prioritize, countChangeLane_remove]

/-- Removing the flag write from an obstacle record is the identity when the
written value is the one the record already holds. -/
theorem setBlocking_self (o : Obstacle) :
    o = ChangeLaneDecider.setBlocking o o.lane_change_blocking := by
  cases o
  rfl

/-- Pointwise, a list is related to itself by "differs at most in the
blocking flag". -/
theorem forall₂_setBlocking_refl (l : List Obstacle) :
    List.Forall₂ (fun o o2 => o2 = ChangeLaneDecider.setBlocking o o2.lane_change_blocking)
      l l := by
  induction l with
  | nil => exact List.Forall₂.nil
  | cons o rest ih => exact List.Forall₂.cons (setBlocking_self o) ih

/-- The clearance loop touches each obstacle at most in its blocking flag:
every output obstacle equals the corresponding input obstacle up to that
flag. -/
theorem isClearLoop_frame (r : ReferenceLineInfo) (l : List Obstacle) :
    List.Forall₂ (fun o o2 => o2 = ChangeLaneDecider.setBlocking o o2.lane_change_blocking)
      l (ChangeLaneDecider.isClearLoop r l).2 := by
  induction l with
  | nil => exact List.Forall₂.nil
  | cons o rest ih =>
    cases hskip : ChangeLaneDecider.skipsObstacle r o with
    | true =>
      simp only [ChangeLaneDecider.isClearLoop, hskip, if_true]
      exact List.Forall₂.cons (setBlocking_self o) ih
    | false =>
      cases hblock : ChangeLaneDecider.obstacleBlocks r o with
      | true =>
        simp only [ChangeLaneDecider.isClearLoop, hskip, hblock, Bool.false_eq_true,
          if_false, if_true]
        exact List.Forall₂.cons rfl (forall₂_setBlocking_refl rest)
      | false =>
        simp only [ChangeLaneDecider.isClearLoop, hskip, hblock, Bool.false_eq_true,
          if_false]
        exact List.Forall₂.cons rfl ih

/-- Full characterization of the clearance loop: it returns `false` exactly
when some non-skipped obstacle is judged blocking; the obstacles strictly
before the first such one receive a `false` flag if evaluated and stay
untouched if skipped; the first blocking obstacle receives a `true` flag; all
later obstacles are left untouched. -/
theorem isClearLoop_characterized (r : ReferenceLineInfo) (l : List Obstacle) :
    ChangeLaneDecider.isClearLoop r l =
      (!(l.any (evalBlocks r)),
        (l.takeWhile (fun o => !evalBlocks r o)).map (passFlagWrite r) ++
          match l.dropWhile (fun o => !evalBlocks r o) with
          | [] => []
          | b :: post => ChangeLaneDecider.setBlocking b true :: post) := by
  induction l with
  | nil => rfl
  | cons o rest ih =>
    cases hskip : ChangeLaneDecider.skipsObstacle r o with
    | true =>
      have hev : evalBlocks r o = false := by simp [evalBlocks, hskip]
      simp [ChangeLaneDecider.isClearLoop, hskip, hev, ih, List.takeWhile_cons,
        List.dropWhile_cons, passFlagWrite]
    | false =>
      cases hblock : ChangeLaneDecider.obstacleBlocks r o with
      | true =>
        have hev : evalBlocks r o = true := by simp [evalBlocks, hskip, hblock]
        simp [ChangeLaneDecider.isClearLoop, hskip, hblock, hev, List.takeWhile_cons,
          List.dropWhile_cons]
      | false =>
        have hev : evalBlocks r o = false := by simp [evalBlocks, hskip, hblock]
        simp [ChangeLaneDecider.isClearLoop, hskip, hblock, hev, ih, List.takeWhile_cons,
          List.dropWhile_cons, passFlagWrite]

/-! ## Claims -/

/-- C5: `HysteresisFilter` with `was_blocking = true` returns
`gap < safe + buffer`, with `was_blocking = false` returns
`gap < safe − buffer`; for a non-negative buffer the two runs disagree
exactly when the gap lies in `[safe − buffer, safe + buffer)`, and outside
that band the result does not depend on `was_blocking`. -/
theorem C5_hysteresis_band (gap safe buffer : ℚ) (hb : 0 ≤ buffer) :
    ChangeLaneDecider.HysteresisFilter gap safe buffer true =
        decide (gap < safe + buffer) ∧
    ChangeLaneDecider.HysteresisFilter gap safe buffer false =
        decide (gap < safe - buffer) ∧
    (ChangeLaneDecider.HysteresisFilter gap safe buffer true ≠
        ChangeLaneDecider.HysteresisFilter gap safe buffer false ↔
      safe - buffer ≤ gap ∧ gap < safe + buffer) ∧
    ((gap < safe - buffer ∨ safe + buffer ≤ gap) →
      ∀ b₁ b₂ : Bool, ChangeLaneDecider.HysteresisFilter gap safe buffer b₁ =
        ChangeLaneDecider.HysteresisFilter gap safe buffer b₂) := by
  refine ⟨rfl, rfl, ?_, ?_⟩
  · constructor
    · intro hne
      by_contra hc
      rw [not_and_or, not_le, not_lt] at hc
      rcases hc with h | h
      · exact hne (by
          simp [ChangeLaneDecider.HysteresisFilter, h,
            (by linarith : gap < safe + buffer)])
      · exact hne (by
          simp [ChangeLaneDecider.HysteresisFilter, not_lt.mpr h,
            not_lt.mpr (by linarith : safe - buffer ≤ gap)])
    · rintro ⟨h1, h2⟩
      simp [ChangeLaneDecider.HysteresisFilter, h2, not_lt.mpr h1]
  · intro h b₁ b₂
    have heq : decide (gap < safe + buffer) = decide (gap < safe - buffer) := by
      rcases h with h | h
      · simp [h, (by linarith : gap < safe + buffer)]
      · simp [not_lt.mpr h, not_lt.mpr (by linarith : safe - buffer ≤ gap)]
    cases b₁ <;> cases b₂ <;>
      simp [ChangeLaneDecider.HysteresisFilter, heq]

/-- C5 witness: at `gap = 4`, `safe = 5`, `buffer = 1` the gap lies in the
disagreement band, so the two runs of the filter disagree. -/
theorem C5_hysteresis_band_witness :
    ChangeLaneDecider.HysteresisFilter 4 5 1 true ≠
      ChangeLaneDecider.HysteresisFilter 4 5 1 false :=
  (C5_hysteresis_band 4 5 1 (by norm_num)).2.2.1.mpr ⟨by norm_num, by norm_num⟩

/-- C8: on the empty candidate sequence `Apply` fails with the empty-input
error and leaves both the candidate list and the persisted status unchanged,
for every persisted status and every flag configuration. -/
theorem C8_empty_input (reckless : Bool) (failFreeze successFreeze now : ℚ)
    (prev : ChangeLaneStatus) :
    ChangeLaneDecider.Apply reckless failFreeze successFreeze now prev [] =
      ⟨Except.error ApplyError.EmptyInput, [], prev⟩ := rfl

/-- C10: with no persisted status (UNSET) and a non-empty candidate sequence
in which every candidate is a change-lane path, `Apply` succeeds and records
`CHANGE_LANE_SUCCESS` with an empty path id and the current clock reading;
the no-active-lane check is not reached. -/
theorem C10_bootstrap_all_change (failFreeze successFreeze now : ℚ)
    (prev : ChangeLaneStatus) (lines : List ReferenceLineInfo)
    (hne : lines ≠ [])
    (hall : ∀ r ∈ lines, r.IsChangeLanePath = true)
    (hprev : prev.status = none) :
    ChangeLaneDecider.Apply false failFreeze successFreeze now prev lines =
      ⟨Except.ok (), lines, ⟨some StatusCode.CHANGE_LANE_SUCCESS, "", now⟩⟩ := by
  cases lines with
  | nil => exact absurd rfl hne
  | cons front rest =>
    unfold ChangeLaneDecider.Apply
    rw [hprev]
    simp only [Bool.false_eq_true, if_false]
    rw [getCurrentPathId_all_change (front :: rest) hall]
    rfl

/-- C10 witness: bootstrap on the all-change-lane list `[laneB]`. -/
theorem C10_bootstrap_all_change_witness :
    ChangeLaneDecider.Apply false 2 2 7 ⟨none, "", 0⟩ [laneB] =
      ⟨Except.ok (), [laneB], ⟨some StatusCode.CHANGE_LANE_SUCCESS, "", 7⟩⟩ :=
  C10_bootstrap_all_change 2 2 7 ⟨none, "", 0⟩ [laneB] (by simp)
    (by intro r hr; simp only [List.mem_singleton] at hr; subst hr; rfl) rfl

/-- C6: with persisted phase `IN_CHANGE_LANE`, more than one candidate and a
current non-change candidate: when the persisted path id matches the current
path id, `Apply` moves the change-lane candidate to the front and succeeds
without changing the persisted status; otherwise it removes every change-lane
candidate, records `CHANGE_LANE_SUCCESS` with the current path id, and
succeeds. -/
theorem C6_in_change_lane_multi (failFreeze successFreeze now : ℚ)
    (prev : ChangeLaneStatus) (lines : List ReferenceLineInfo)
    (hst : prev.status = some StatusCode.IN_CHANGE_LANE)
    (hlen : 1 < lines.length)
    (hcur : GetCurrentPathId lines ≠ "") :
    ChangeLaneDecider.Apply false failFreeze successFreeze now prev lines =
      if prev.path_id = GetCurrentPathId lines then
        ⟨Except.ok (), ChangeLaneDecider.PrioritizeChangeLane lines, prev⟩
      else
        ⟨Except.ok (), ChangeLaneDecider.RemoveChangeLane lines,
          ChangeLaneDecider.UpdateStatus now StatusCode.CHANGE_LANE_SUCCESS
            (GetCurrentPathId lines)⟩ := by
  cases lines with
  | nil => simp at hlen
  | cons front rest =>
    have hrest : rest.isEmpty = false := by
      cases rest with
      | nil => simp at hlen
      | cons a as => rfl
    unfold ChangeLaneDecider.Apply
    rw [hst]
    simp only [Bool.false_eq_true, if_false, hrest]
    rw [if_neg hcur]

/-- C6 witness: mid-maneuver continuation at the matching path id `"A"`:
the change-lane candidate is prioritized and the status is untouched. -/
theorem C6_in_change_lane_multi_witness :
    ChangeLaneDecider.Apply false 2 2 3
        ⟨some StatusCode.IN_CHANGE_LANE, "A", 0⟩ [laneA, laneB] =
      ⟨Except.ok (), [laneB, laneA], ⟨some StatusCode.IN_CHANGE_LANE, "A", 0⟩⟩ := by
  rw [C6_in_change_lane_multi 2 2 3 _ _ rfl (by decide) (by decide)]
  simp [GetCurrentPathId, laneA, laneB, ReferenceLineInfo.IsChangeLanePath,
    ChangeLaneDecider.PrioritizeChangeLane, ChangeLaneDecider.extractFirstChangeLane]

/-- C7: with persisted phase `CHANGE_LANE_FAILED`, more than one candidate, a
current non-change candidate and elapsed time strictly below the failure
freeze duration, `Apply` removes every change-lane candidate, succeeds and
leaves the persisted status (phase, path id, timestamp) unchanged. -/
theorem C7_failed_frozen (failFreeze successFreeze now : ℚ)
    (prev : ChangeLaneStatus) (lines : List ReferenceLineInfo)
    (hst : prev.status = some StatusCode.CHANGE_LANE_FAILED)
    (hlen : 1 < lines.length)
    (hcur : GetCurrentPathId lines ≠ "")
    (htime : now - prev.timestamp < failFreeze) :
    ChangeLaneDecider.Apply false failFreeze successFreeze now prev lines =
      ⟨Except.ok (), ChangeLaneDecider.RemoveChangeLane lines, prev⟩ := by
  cases lines with
  | nil => simp at hlen
  | cons front rest =>
    have hrest : rest.isEmpty = false := by
      cases rest with
      | nil => simp at hlen
      | cons a as => rfl
    unfold ChangeLaneDecider.Apply
    rw [hst]
    simp only [Bool.false_eq_true, if_false, hrest]
    rw [if_neg hcur, if_pos htime]

/-- C7 witness: cooldown still active (`now − t₀ = 1 < 2`): the change-lane
candidate `laneB` is removed, status untouched. -/
theorem C7_failed_frozen_witness :
    ChangeLaneDecider.Apply false 2 2 1
        ⟨some StatusCode.CHANGE_LANE_FAILED, "A", 0⟩ [laneA, laneB] =
      ⟨Except.ok (), [laneA], ⟨some StatusCode.CHANGE_LANE_FAILED, "A", 0⟩⟩ := by
  rw [C7_failed_frozen 2 2 1 _ _ rfl (by decide) (by decide) (by norm_num)]
  simp [ChangeLaneDecider.RemoveChangeLane, laneA, laneB,
    ReferenceLineInfo.IsChangeLanePath]

/-- C2 counterexample: with phase `CHANGE_LANE_FAILED` at `t₀ = 0`, freeze
duration `2`, clock `3` and candidates `[laneA, laneB(change)]`, `Apply`
succeeds and promotes the status to `IN_CHANGE_LANE` with the current path
id, but leaves the sequence order unchanged: `laneB` is not moved to the
front, although `PrioritizeChangeLane` would have produced a different
list. -/
theorem C2_failed_expired_no_prioritize :
    ChangeLaneDecider.Apply false 2 2 3
        ⟨some StatusCode.CHANGE_LANE_FAILED, "A", 0⟩ [laneA, laneB] =
      ⟨Except.ok (), [laneA, laneB], ⟨some StatusCode.IN_CHANGE_LANE, "A", 3⟩⟩ ∧
    laneA.IsChangeLanePath = false ∧ laneB.IsChangeLanePath = true ∧
    ChangeLaneDecider.PrioritizeChangeLane [laneA, laneB] = [laneB, laneA] ∧
    ([laneA, laneB] : List ReferenceLineInfo) ≠ [laneB, laneA] := by
  refine ⟨?_, rfl, rfl, ?_, ?_⟩
  · norm_num [ChangeLaneDecider.Apply, GetCurrentPathId, ChangeLaneDecider.UpdateStatus,
      laneA, laneB, ReferenceLineInfo.IsChangeLanePath]
    decide
  · simp [ChangeLaneDecider.PrioritizeChangeLane, ChangeLaneDecider.extractFirstChangeLane,
      laneA, laneB, ReferenceLineInfo.IsChangeLanePath]
  · simp [laneA, laneB]

/-- C2 amended: with persisted phase `CHANGE_LANE_FAILED`, more than one
candidate, a current non-change candidate and elapsed time at least the
failure freeze duration, `Apply` succeeds and sets the status to
`IN_CHANGE_LANE` with the current path id and the current clock reading,
leaving the candidate sequence unchanged (no prioritization happens in this
branch). -/
theorem C2_failed_expired_amended (failFreeze successFreeze now : ℚ)
    (prev : ChangeLaneStatus) (lines : List ReferenceLineInfo)
    (hst : prev.status = some StatusCode.CHANGE_LANE_FAILED)
    (hlen : 1 < lines.length)
    (hcur : GetCurrentPathId lines ≠ "")
    (htime : failFreeze ≤ now - prev.timestamp) :
    ChangeLaneDecider.Apply false failFreeze successFreeze now prev lines =
      ⟨Except.ok (), lines,
        ChangeLaneDecider.UpdateStatus now StatusCode.IN_CHANGE_LANE
          (GetCurrentPathId lines)⟩ := by
  cases lines with
  | nil => simp at hlen
  | cons front rest =>
    have hrest : rest.isEmpty = false := by
      cases rest with
      | nil => simp at hlen
      | cons a as => rfl
    unfold ChangeLaneDecider.Apply
    rw [hst]
    simp only [Bool.false_eq_true, if_false, hrest]
    rw [if_neg hcur, if_neg (not_lt.mpr htime)]

/-- C2 amended witness: cooldown expired (`now − t₀ = 3 ≥ 2`): status becomes
`IN_CHANGE_LANE` with path id `"A"` and timestamp `3`; the list is
unchanged. -/
theorem C2_failed_expired_witness :
    ChangeLaneDecider.Apply false 2 2 3
        ⟨some StatusCode.CHANGE_LANE_FAILED, "A", 0⟩ [laneA, laneB] =
      ⟨Except.ok (), [laneA, laneB], ⟨some StatusCode.IN_CHANGE_LANE, "A", 3⟩⟩ := by
  rw [C2_failed_expired_amended 2 2 3 _ _ rfl (by decide) (by decide) (by norm_num)]
  simp [ChangeLaneDecider.UpdateStatus, GetCurrentPathId, laneA,
    ReferenceLineInfo.IsChangeLanePath]

/-- C3 counterexample: with the reckless flag set and the empty candidate
sequence, `Apply` does not succeed: the emptiness check runs before the
reckless check and fails with the empty-input error. -/
theorem C3_reckless_empty_fails :
    ChangeLaneDecider.Apply true 2 2 0 ⟨some StatusCode.CHANGE_LANE_SUCCESS, "A", 0⟩ [] =
      ⟨Except.error ApplyError.EmptyInput, [],
        ⟨some StatusCode.CHANGE_LANE_SUCCESS, "A", 0⟩⟩ := rfl

/-- C3 amended: with the reckless flag set and a non-empty candidate
sequence, `Apply` bypasses the state machine: it moves the first change-lane
candidate to the front (a no-op if none exists), succeeds, and leaves the
persisted status untouched; the reckless check runs after the emptiness
check but before all state-machine logic. -/
theorem C3_reckless_amended (failFreeze successFreeze now : ℚ)
    (prev : ChangeLaneStatus) (lines : List ReferenceLineInfo)
    (hne : lines ≠ []) :
    ChangeLaneDecider.Apply true failFreeze successFreeze now prev lines =
      ⟨Except.ok (), ChangeLaneDecider.PrioritizeChangeLane lines, prev⟩ := by
  cases lines with
  | nil => exact absurd rfl hne
  | cons front rest => rfl

/-- C3 amended witness: reckless mode on `[laneA, laneB]` moves `laneB` to
the front and keeps the persisted status as it was. -/
theorem C3_reckless_witness :
    ChangeLaneDecider.Apply true 2 2 0
        ⟨some StatusCode.CHANGE_LANE_SUCCESS, "Z", 4⟩ [laneA, laneB] =
      ⟨Except.ok (), [laneB, laneA], ⟨some StatusCode.CHANGE_LANE_SUCCESS, "Z", 4⟩⟩ := by
  rw [C3_reckless_amended 2 2 0 _ _ (by simp)]
  simp [ChangeLaneDecider.PrioritizeChangeLane, ChangeLaneDecider.extractFirstChangeLane,
    laneA, laneB, ReferenceLineInfo.IsChangeLanePath]

/-- C1 counterexample: in the bootstrap branch (no persisted status) with the
two change-lane candidates `[laneB, laneC]`, `Apply` succeeds and leaves both
change-lane candidates in the sequence: a successful non-reckless cycle can
leave more than one change-lane candidate behind. -/
theorem C1_two_change_lane_survive :
    (ChangeLaneDecider.Apply false 2 2 5 ⟨none, "", 0⟩ [laneB, laneC]).result =
        Except.ok () ∧
    countChangeLane
        (ChangeLaneDecider.Apply false 2 2 5 ⟨none, "", 0⟩ [laneB, laneC]).lines = 2 :=
  ⟨rfl, rfl⟩

/-- C1 amended: for every non-empty candidate sequence containing at most one
change-lane candidate on entry, a successful non-reckless `Apply` leaves at
most one change-lane candidate in the sequence (the state machine never
increases their number; with more than one on entry the bound can fail, as
the counterexample shows). -/
theorem C1_at_most_one_change_lane (failFreeze successFreeze now : ℚ)
    (prev : ChangeLaneStatus) (lines : List ReferenceLineInfo)
    (hne : lines ≠ [])
    (hok : (ChangeLaneDecider.Apply false failFreeze successFreeze now prev lines).result =
      Except.ok ())
    (h1 : countChangeLane lines ≤ 1) :
    countChangeLane
        (ChangeLaneDecider.Apply false failFreeze successFreeze now prev lines).lines ≤ 1 :=
  le_trans (countChangeLane_apply_le false failFreeze successFreeze now prev lines) h1

/-- C1 amended witness: a successful bootstrap cycle on `[laneA, laneB]`
leaves at most one change-lane candidate. -/
theorem C1_at_most_one_change_lane_witness :
    countChangeLane
        (ChangeLaneDecider.Apply false 2 2 5 ⟨none, "", 0⟩ [laneA, laneB]).lines ≤ 1 :=
  C1_at_most_one_change_lane 2 2 5 ⟨none, "", 0⟩ [laneA, laneB] (by simp) rfl (by decide)

/-- C4 counterexample: on the change-lane candidate `laneChangeRef`, the
non-virtual, non-static obstacle `obstLat` has both hysteresis checks judging
its gaps unsafe, yet `IsClearToChangeLane` returns `true` and leaves its flag
unwritten: the lateral-corridor prefilter (`end_l = -3 < -2.5`) skips the
obstacle before the gap checks run, so blocking is not equivalent to "both
gap checks unsafe" over all non-virtual, non-static obstacles. -/
theorem C4_lateral_skip_not_blocking :
    ChangeLaneDecider.IsClearToChangeLane laneChangeRef = (true, [obstLat]) ∧
    obstLat.isVirtual = false ∧ obstLat.isStatic = false ∧
    ChangeLaneDecider.obstacleBlocks laneChangeRef obstLat = true := by
  have hskip : ChangeLaneDecider.skipsObstacle laneChangeRef obstLat = true := by
    norm_num [ChangeLaneDecider.skipsObstacle, laneChangeRef, obstLat, polyBounds,
      dblMax, ReferenceLineInfo.IsChangeLanePath]
  have hblock : ChangeLaneDecider.obstacleBlocks laneChangeRef obstLat = true := by
    norm_num [ChangeLaneDecider.obstacleBlocks, ChangeLaneDecider.HysteresisFilter,
      ChangeLaneDecider.safeDistances, ChangeLaneDecider.sameDirection, laneChangeRef,
      obstLat, polyBounds, dblMax, sampleVehicle]
  refine ⟨?_, rfl, rfl, hblock⟩
  show ChangeLaneDecider.isClearLoop laneChangeRef [obstLat] = (true, [obstLat])
  simp [ChangeLaneDecider.isClearLoop, hskip]

/-- C4 amended: `IsClearToChangeLane`, scanning the obstacles of the
candidate in order, declares an obstacle blocking exactly when it is neither
virtual nor static, is not removed by the lateral-corridor prefilter on a
change-lane candidate, and both gap hysteresis checks judge its gaps unsafe
(`evalBlocks`); it returns `false` iff such an obstacle exists; the evaluated
obstacles before the first blocking one get their flag set `false`, skipped
ones keep their flag, the first blocking obstacle gets its flag set `true`,
and all obstacles after it are left unwritten; with no blocking obstacle it
returns `true`. -/
theorem C4_clearance_characterized (r : ReferenceLineInfo) :
    ChangeLaneDecider.IsClearToChangeLane r =
      (!(r.obstacles.any (evalBlocks r)),
        (r.obstacles.takeWhile (fun o => !evalBlocks r o)).map (passFlagWrite r) ++
          match r.obstacles.dropWhile (fun o => !evalBlocks r o) with
          | [] => []
          | b :: post => ChangeLaneDecider.setBlocking b true :: post) :=
  isClearLoop_characterized r r.obstacles

/-- C9 counterexample: a successful non-reckless cycle (phase
`CHANGE_LANE_FAILED` still inside the freeze window) leaves the persisted
status entirely unmutated, its timestamp `8` differing from the clock reading
`9` of the cycle: the status is not mutated exactly once per cycle and a
successful `Apply` need not stamp the current clock. -/
theorem C9_status_not_always_written :
    ChangeLaneDecider.Apply false 2 2 9
        ⟨some StatusCode.CHANGE_LANE_FAILED, "A", 8⟩ [laneA, laneB] =
      ⟨Except.ok (), [laneA], ⟨some StatusCode.CHANGE_LANE_FAILED, "A", 8⟩⟩ ∧
    (8 : ℚ) ≠ 9 := by
  constructor
  · norm_num [ChangeLaneDecider.Apply, GetCurrentPathId, ChangeLaneDecider.RemoveChangeLane,
      laneA, laneB, ReferenceLineInfo.IsChangeLanePath]
    decide
  · norm_num

/-- C9 amended: per cycle, `Apply` mutates the persisted status at most once
— the final status is either the previous one or a single atomic
`UpdateStatus` write whose timestamp is the clock reading of the cycle — and
`IsClearToChangeLane` mutates each obstacle at most in its blocking flag:
every output obstacle equals the corresponding input obstacle up to that
flag. -/
theorem C9_frame_at_most_once :
    (∀ (reckless : Bool) (failFreeze successFreeze now : ℚ) (prev : ChangeLaneStatus)
        (lines : List ReferenceLineInfo),
      (ChangeLaneDecider.Apply reckless failFreeze successFreeze now prev lines).status =
          prev ∨
        ∃ c p,
          (ChangeLaneDecider.Apply reckless failFreeze successFreeze now prev lines).status =
            ChangeLaneDecider.UpdateStatus now c p) ∧
    ∀ r : ReferenceLineInfo,
      List.Forall₂ (fun o o2 => o2 = ChangeLaneDecider.setBlocking o o2.lane_change_blocking)
        r.obstacles (ChangeLaneDecider.IsClearToChangeLane r).2 := by
  constructor
  · intro reckless failFreeze successFreeze now prev lines
    unfold ChangeLaneDecider.Apply
    cases lines with
    | nil => exact Or.inl rfl
    | cons front rest =>
      dsimp only
      repeat' split
      all_goals first
        | exact Or.inl rfl
        | exact Or.inr ⟨_, _, rfl⟩
  · intro r
    exact isClearLoop_frame r r.obstacles

end Apollo
